import Mathlib

/-!
Shallow embedding of the MacroWeb algorithm library (goal/energy-balance
calculation engine).  JavaScript numbers are modelled as rationals; where a
function rounds, JavaScript `Math.round x = ⌊x + 1/2⌋` (half toward +∞).
JavaScript `Date` values are modelled by their epoch timestamp in
milliseconds (an integer, since every date in the claims is a UTC midnight);
the civil-calendar conversions performed by the JavaScript runtime
(`Date.prototype.getUTCFullYear` on the proleptic Gregorian calendar) are
embedded via the standard days-from-civil / civil-from-days algorithms using
floor division.
-/

/-- JavaScript `Math.round`: round half toward positive infinity.  Stated with
the computable `Rat.floor`; `jsRound_eq` rewrites it as `Int.floor`. -/
def jsRound (q : ℚ) : ℚ := (((q + 1/2).floor : ℤ) : ℚ)

/-- Milliseconds per day, `1000 * 60 * 60 * 24` from the source. -/
def msPerDay : ℤ := 1000 * 60 * 60 * 24

/-- Days from the epoch 1970-01-01 of the proleptic Gregorian date (y, m, d)
(the standard civil-from-days inverse, using floor division). -/
def daysFromCivil (y m d : ℤ) : ℤ :=
  let y2 := if m ≤ 2 then y - 1 else y
  let era := Int.fdiv y2 400
  let yoe := y2 - era * 400
  let mp := Int.emod (m + 9) 12
  let doy := Int.fdiv (153 * mp + 2) 5 + d - 1
  let doe := yoe * 365 + Int.fdiv yoe 4 - Int.fdiv yoe 100 + doy
  era * 146097 + doe - 719468

/-- The proleptic Gregorian year containing the day `z` days after the epoch
1970-01-01 (the year component of the standard civil-from-days algorithm);
this is `getUTCFullYear` of a timestamp falling on day `z`. -/
def yearFromDays (z : ℤ) : ℤ :=
  let z2 := z + 719468
  let era := Int.fdiv z2 146097
  let doe := z2 - era * 146097
  let yoe := Int.fdiv (doe - Int.fdiv doe 1460 + Int.fdiv doe 36524 - Int.fdiv doe 146096) 365
  let y := yoe + era * 400
  let doy := doe - (365 * yoe + Int.fdiv yoe 4 - Int.fdiv yoe 100)
  let mp := Int.fdiv (5 * doy + 2) 153
  let m := mp + (if mp < 10 then 3 else -9)
  if m ≤ 2 then y + 1 else y

/-- Epoch timestamp in milliseconds of the UTC midnight of (y, m, d); this is
`new Date("YYYY-MM-DD").getTime()`. -/
def mkMs (y m d : ℤ) : ℤ := daysFromCivil y m d * msPerDay

/-- Source `calculateAge`: `ageDiffMs = referenceDate - dateOfBirth`;
`ageDate = new Date(ageDiffMs)`; result `Math.abs(ageDate.getUTCFullYear() - 1970)`.
The civil day containing a timestamp `t` is `⌊t / msPerDay⌋`. -/
def calculateAge (dateOfBirth referenceDate : ℤ) : ℤ :=
  let ageDiffMs := referenceDate - dateOfBirth
  |yearFromDays (Int.fdiv ageDiffMs msPerDay) - 1970|

/-- Source `daysBetween`: `Math.round(diffMs / msPerDay)`. -/
def daysBetween (startDate endDate : ℤ) : ℚ :=
  jsRound (((endDate - startDate : ℤ) : ℚ) / ((msPerDay : ℤ) : ℚ))

/-- Source constant `CALORIES_PER_POUND`. -/
def CALORIES_PER_POUND : ℚ := 3500

/-- Source constant `MIN_CALORIES_MALE`. -/
def MIN_CALORIES_MALE : ℚ := 1500

/-- Source constant `MIN_CALORIES_FEMALE`. -/
def MIN_CALORIES_FEMALE : ℚ := 1200

/-- Source constant `MAX_WEEKLY_LOSS_LBS`. -/
def MAX_WEEKLY_LOSS_LBS : ℚ := 2

/-- Source constant `MAX_WEEKLY_GAIN_LBS`. -/
def MAX_WEEKLY_GAIN_LBS : ℚ := 1

/-- Source `calculateRequiredWeeklyChange`; the source reads the current time
via `new Date()`, modelled by the explicit `now` parameter. -/
def calculateRequiredWeeklyChange (currentWeightLbs targetWeightLbs : ℚ)
    (targetDate now : ℤ) : ℚ :=
  let days := daysBetween now targetDate
  let weeks := days / 7
  if weeks ≤ 0 then 0
  else (targetWeightLbs - currentWeightLbs) / weeks

/-- Gender enumeration from the source. -/
inductive Gender where
  | male
  | female
  | other
deriving DecidableEq

/-- Macro preference enumeration from the source. -/
inductive MacroPreference where
  | balanced
  | high_protein
  | low_carb
  | keto
  | manual
deriving DecidableEq

/-- A (protein, carbs, fat) ratio triple. -/
structure MacroRatios where
  protein : ℚ
  carbs : ℚ
  fat : ℚ
deriving DecidableEq

/-- Source table `MACRO_PRESETS`. -/
def MACRO_PRESETS : MacroPreference → MacroRatios
  | .balanced => ⟨30/100, 35/100, 35/100⟩
  | .high_protein => ⟨40/100, 30/100, 30/100⟩
  | .low_carb => ⟨35/100, 20/100, 45/100⟩
  | .keto => ⟨30/100, 5/100, 65/100⟩
  | .manual => ⟨30/100, 35/100, 35/100⟩

/-- Result record of `validateGoalSafety`. -/
structure GoalSafetyCheck where
  isSafe : Bool
  isRealistic : Bool
  message : String
deriving DecidableEq

/-- Model of JavaScript `Number.prototype.toFixed(1)` for the non-negative
magnitudes formatted by `validateGoalSafety`: nearest multiple of 1/10, ties
to the larger value. -/
def toFixed1 (q : ℚ) : String :=
  let n := (q * 10 + 1/2).floor
  toString (Int.fdiv n 10) ++ "." ++ toString (Int.emod n 10)

/-- Source `validateGoalSafety`; the early returns of the source become an
if-else chain, and the common final return is duplicated into the branches
that fall through to it. -/
def validateGoalSafety (weeklyChange : ℚ) : GoalSafetyCheck :=
  let absChange := |weeklyChange|
  if weeklyChange < 0 then
    if absChange > MAX_WEEKLY_LOSS_LBS * (3/2) then
      ⟨false, false, "Losing " ++ toFixed1 absChange ++
        " lbs/week is extremely dangerous and unrealistic. Maximum recommended is 2 lbs/week."⟩
    else if absChange > MAX_WEEKLY_LOSS_LBS then
      ⟨false, true, "Losing " ++ toFixed1 absChange ++
        " lbs/week is aggressive and may not be sustainable. Consider a more gradual approach."⟩
    else ⟨true, true, "Your goal is realistic and safe."⟩
  else if weeklyChange > 0 then
    if absChange > MAX_WEEKLY_GAIN_LBS * (3/2) then
      ⟨false, false, "Gaining " ++ toFixed1 absChange ++
        " lbs/week will likely result in excessive fat gain. Maximum recommended is 1 lb/week."⟩
    else if absChange > MAX_WEEKLY_GAIN_LBS then
      ⟨false, true, "Gaining " ++ toFixed1 absChange ++
        " lbs/week is aggressive. Consider a slower approach for lean gains."⟩
    else ⟨true, true, "Your goal is realistic and safe."⟩
  else ⟨true, true, "Your goal is realistic and safe."⟩

/-- Result record of `calculateDailyCalorieTarget`. -/
structure DailyCalorieTarget where
  dailyCalories : ℚ
  weeklyChange : ℚ
  dailyDeficitSurplus : ℚ
deriving DecidableEq

/-- Source `calculateDailyCalorieTarget` (the `GoalCalculationInput` record is
passed as separate arguments; `now` models the `new Date()` read inside
`calculateRequiredWeeklyChange`). -/
def calculateDailyCalorieTarget (tdee currentWeightLbs targetWeightLbs : ℚ)
    (targetDate now : ℤ) (gender : Gender) : DailyCalorieTarget :=
  let weeklyChange := calculateRequiredWeeklyChange currentWeightLbs targetWeightLbs targetDate now
  let dailyDeficitSurplus := weeklyChange * CALORIES_PER_POUND / 7
  let rounded := jsRound (tdee + dailyDeficitSurplus)
  let minCalories := if gender = .male then MIN_CALORIES_MALE else MIN_CALORIES_FEMALE
  let dailyCalories := if rounded < minCalories then minCalories else rounded
  ⟨dailyCalories, weeklyChange, dailyDeficitSurplus⟩

/-- Result record of `calculateMacroGrams`. -/
structure MacroGrams where
  proteinGrams : ℚ
  carbsGrams : ℚ
  fatGrams : ℚ
deriving DecidableEq

/-- Source `calculateMacroGrams`.  Note the unguarded normalization by the
ratio total: when the total is zero the JavaScript divisions produce
non-finite numbers (NaN); the rational model instead yields 0 by the Lean
convention for division by zero (see `calculateMacroGramsJs` for a model that
tracks the non-finite outcome). -/
def calculateMacroGrams (dailyCalories proteinRatio carbsRatio fatRatio : ℚ) : MacroGrams :=
  let total := proteinRatio + carbsRatio + fatRatio
  let normalizedProtein := proteinRatio / total
  let normalizedCarbs := carbsRatio / total
  let normalizedFat := fatRatio / total
  ⟨jsRound (dailyCalories * normalizedProtein / 4),
   jsRound (dailyCalories * normalizedCarbs / 4),
   jsRound (dailyCalories * normalizedFat / 9)⟩

/-- Grams where `none` stands for a non-finite JavaScript number. -/
structure MacroGramsJs where
  proteinGrams : Option ℚ
  carbsGrams : Option ℚ
  fatGrams : Option ℚ
deriving DecidableEq

/-- Model of `calculateMacroGrams` that tracks JavaScript non-finite
propagation: when the ratio total is zero each division by `total` yields NaN
or ±Infinity, and multiplication and `Math.round` keep the value non-finite,
so every gram field is non-finite (`none`); no error is thrown.  When the
total is nonzero it agrees with `calculateMacroGrams`. -/
def calculateMacroGramsJs (dailyCalories proteinRatio carbsRatio fatRatio : ℚ) : MacroGramsJs :=
  if proteinRatio + carbsRatio + fatRatio = 0 then ⟨none, none, none⟩
  else
    let g := calculateMacroGrams dailyCalories proteinRatio carbsRatio fatRatio
    ⟨some g.proteinGrams, some g.carbsGrams, some g.fatGrams⟩

/-- Result record of `getMacroTargets`. -/
structure MacroTargets where
  dailyCalories : ℚ
  proteinGrams : ℚ
  carbsGrams : ℚ
  fatGrams : ℚ
deriving DecidableEq

/-- Source `getMacroTargets`; the optional `customRatios` parameter is an
`Option`, and the source guard `preference === 'manual' && customRatios` is
the match on both. -/
def getMacroTargets (dailyCalories : ℚ) (preference : MacroPreference)
    (customRatios : Option MacroRatios) : MacroTargets :=
  let ratios := match preference, customRatios with
    | .manual, some r => r
    | _, _ => MACRO_PRESETS preference
  let grams := calculateMacroGrams dailyCalories ratios.protein ratios.carbs ratios.fat
  ⟨dailyCalories, grams.proteinGrams, grams.carbsGrams, grams.fatGrams⟩

/-- Source `calculateTrueTDEE` (the source default `daysTracked = 7` is passed
explicitly at the call sites). -/
def calculateTrueTDEE (avgDailyCalories weightChangeLbs daysTracked : ℚ) : ℚ :=
  jsRound (avgDailyCalories - weightChangeLbs * CALORIES_PER_POUND / daysTracked)

/-- Input record of `performWeeklyCheckIn`. -/
structure WeeklyCheckInInput where
  previousWeight : ℚ
  currentWeight : ℚ
  avgDailyCalories : ℚ
  currentDailyTarget : ℚ
  targetWeightLbs : ℚ
  targetDate : ℤ
  macroPreference : MacroPreference
  proteinRatio : ℚ
  carbsRatio : ℚ
  fatRatio : ℚ

/-- Result record of `performWeeklyCheckIn`. -/
structure WeeklyCheckInResult where
  calculatedTDEE : ℚ
  expectedWeeklyChange : ℚ
  actualWeeklyChange : ℚ
  newDailyCalories : ℚ
  adjustmentReason : String
  newProteinGrams : ℚ
  newCarbsGrams : ℚ
  newFatGrams : ℚ

/-- Source `performWeeklyCheckIn` (`now` models the `new Date()` read inside
`calculateRequiredWeeklyChange`). -/
def performWeeklyCheckIn (input : WeeklyCheckInInput) (now : ℤ) : WeeklyCheckInResult :=
  let actualWeeklyChange := input.currentWeight - input.previousWeight
  let expectedWeeklyChange := calculateRequiredWeeklyChange
    input.previousWeight input.targetWeightLbs input.targetDate now
  let calculatedTDEE := calculateTrueTDEE input.avgDailyCalories actualWeeklyChange 7
  let tolerance : ℚ := 2/10
  let adjusted : ℚ × String :=
    if expectedWeeklyChange < 0 then
      if actualWeeklyChange > expectedWeeklyChange + tolerance then
        (input.currentDailyTarget - 100, "Lost less than expected. Reducing daily calories by 100.")
      else if actualWeeklyChange < expectedWeeklyChange - tolerance then
        (input.currentDailyTarget + 100,
          "Lost more than expected. Increasing daily calories by 100 to prevent too rapid loss.")
      else (input.currentDailyTarget, "On track! No adjustment needed.")
    else if expectedWeeklyChange > 0 then
      if actualWeeklyChange < expectedWeeklyChange - tolerance then
        (input.currentDailyTarget + 100, "Gained less than expected. Increasing daily calories by 100.")
      else if actualWeeklyChange > expectedWeeklyChange + tolerance then
        (input.currentDailyTarget - 100, "Gained more than expected. Reducing daily calories by 100.")
      else (input.currentDailyTarget, "On track! No adjustment needed.")
    else
      if |actualWeeklyChange| > tolerance then
        if actualWeeklyChange > 0 then
          (input.currentDailyTarget - 50, "Weight increased slightly. Reducing calories by 50.")
        else
          (input.currentDailyTarget + 50, "Weight decreased slightly. Increasing calories by 50.")
      else (input.currentDailyTarget, "Maintaining weight. No adjustment needed.")
  let newMacros := calculateMacroGrams adjusted.1 input.proteinRatio input.carbsRatio input.fatRatio
  ⟨calculatedTDEE, expectedWeeklyChange, actualWeeklyChange, adjusted.1, adjusted.2,
   newMacros.proteinGrams, newMacros.carbsGrams, newMacros.fatGrams⟩

/-- The decision table of the claimed weekly check-in behavior, written from
the spec's words (three regimes selected by the sign of the expected weekly
change, tolerance 0.2 lbs in every branch); compared against
`performWeeklyCheckIn` for the refinement claim. -/
def checkInTableSpec (expected actual currentDailyTarget : ℚ) : ℚ :=
  if expected < 0 then
    if actual > expected + 2/10 then currentDailyTarget - 100
    else if actual < expected - 2/10 then currentDailyTarget + 100
    else currentDailyTarget
  else if expected > 0 then
    if actual < expected - 2/10 then currentDailyTarget + 100
    else if actual > expected + 2/10 then currentDailyTarget - 100
    else currentDailyTarget
  else
    if actual > 2/10 then currentDailyTarget - 50
    else if actual < -(2/10) then currentDailyTarget + 50
    else currentDailyTarget

/-- Whole calendar years elapsed from a birth date (y1, m1, d1) to a reference
date (y2, m2, d2), flooring at the birthday, written from the spec's words
("whole years elapsed; must floor, not round"); compared against the source's
`calculateAge`. -/
def wholeYearsElapsed (y1 m1 d1 y2 m2 d2 : ℤ) : ℤ :=
  y2 - y1 - (if m2 < m1 ∨ (m2 = m1 ∧ d2 < d1) then 1 else 0)

/-- The computable `Rat.floor` agrees with the mathematical floor. -/
theorem ratFloor_eq_intFloor (q : ℚ) : q.floor = ⌊q⌋ := by
  rw [Rat.floor_def', Rat.floor_def]

/-- The computable rounding agrees with the mathematical floor of `q + 1/2`. -/
theorem jsRound_eq (q : ℚ) : jsRound q = ((⌊q + 1/2⌋ : ℤ) : ℚ) := by
  rw [jsRound, ratFloor_eq_intFloor]

/-- Interval evaluator for `jsRound` at concrete inputs. -/
theorem jsRound_eqn (q : ℚ) (n : ℤ) (h1 : (n : ℚ) ≤ q + 1/2) (h2 : q + 1/2 < n + 1) :
    jsRound q = (n : ℚ) := by
  rw [jsRound_eq]
  have h : ⌊q + 1/2⌋ = n := Int.floor_eq_iff.mpr ⟨h1, by exact_mod_cast h2⟩
  rw [h]

/-- Interval evaluator for `Rat.floor` at concrete inputs. -/
theorem ratFloor_eqn (q : ℚ) (n : ℤ) (h1 : (n : ℚ) ≤ q) (h2 : q < n + 1) : q.floor = n := by
  rw [ratFloor_eq_intFloor]
  exact Int.floor_eq_iff.mpr ⟨h1, by exact_mod_cast h2⟩

/-- Upper rounding error bound: `jsRound q` exceeds `q` by at most 1/2. -/
theorem jsRound_sub_le (q : ℚ) : jsRound q - q ≤ 1/2 := by
  rw [jsRound_eq]
  have h := Int.floor_le (q + 1/2)
  linarith

/-- Lower rounding error bound: `jsRound q` is less than `q` by less than 1/2. -/
theorem neg_half_lt_jsRound_sub (q : ℚ) : -(1/2) < jsRound q - q := by
  rw [jsRound_eq]
  have h := Int.lt_floor_add_one (q + 1/2)
  linarith

/-- An if-guarded floor clamp is a max. -/
theorem ite_lt_eq_max (a b : ℚ) : (if a < b then b else a) = max a b := by
  split_ifs with h
  · exact (max_eq_right h.le).symm
  · exact (max_eq_left (not_lt.mp h)).symm

/-- C1: for every weekly check-in input, `performWeeklyCheckIn` selects the new
daily calorie target by the three-regime decision table with tolerance 0.2
lbs, where `actualWeeklyChange = currentWeight - previousWeight` and
`expectedWeeklyChange` is the required weekly change computed from
`previousWeight`. -/
theorem performWeeklyCheckIn_decision_table (input : WeeklyCheckInInput) (now : ℤ) :
    (performWeeklyCheckIn input now).actualWeeklyChange
      = input.currentWeight - input.previousWeight ∧
    (performWeeklyCheckIn input now).expectedWeeklyChange
      = calculateRequiredWeeklyChange input.previousWeight input.targetWeightLbs
          input.targetDate now ∧
    (performWeeklyCheckIn input now).newDailyCalories
      = checkInTableSpec
          (calculateRequiredWeeklyChange input.previousWeight input.targetWeightLbs
            input.targetDate now)
          (input.currentWeight - input.previousWeight) input.currentDailyTarget := by
  refine ⟨rfl, rfl, ?_⟩
  simp only [performWeeklyCheckIn, checkInTableSpec]
  rcases abs_cases (input.currentWeight - input.previousWeight) with ⟨hab, hs⟩ | ⟨hab, hs⟩ <;>
    rw [hab] <;> split_ifs <;> first | rfl | linarith

/-- C2: for every tdee, goal, and gender, the daily calorie target equals the
rounded value of `tdee + weeklyChange*3500/7` clamped up to the
gender-dependent floor, i.e. a max with 1500 (male) or 1200 (female/other). -/
theorem calculateDailyCalorieTarget_max (tdee currentWeightLbs targetWeightLbs : ℚ)
    (targetDate now : ℤ) (gender : Gender) :
    (calculateDailyCalorieTarget tdee currentWeightLbs targetWeightLbs targetDate now
        gender).dailyCalories
      = max (jsRound (tdee +
          calculateRequiredWeeklyChange currentWeightLbs targetWeightLbs targetDate now
            * 3500 / 7))
          (if gender = .male then 1500 else 1200) := by
  simp only [calculateDailyCalorieTarget, CALORIES_PER_POUND, MIN_CALORIES_MALE,
    MIN_CALORIES_FEMALE, ite_lt_eq_max]

/-- C6: for every weekly check-in input, the new daily calorie target differs
from the current one by exactly one of -100, -50, 0, +50, +100; in particular
no gender calorie floor is reapplied. -/
theorem performWeeklyCheckIn_no_floor (input : WeeklyCheckInInput) (now : ℤ) :
    (performWeeklyCheckIn input now).newDailyCalories - input.currentDailyTarget = -100 ∨
    (performWeeklyCheckIn input now).newDailyCalories - input.currentDailyTarget = -50 ∨
    (performWeeklyCheckIn input now).newDailyCalories - input.currentDailyTarget = 0 ∨
    (performWeeklyCheckIn input now).newDailyCalories - input.currentDailyTarget = 50 ∨
    (performWeeklyCheckIn input now).newDailyCalories - input.currentDailyTarget = 100 := by
  simp only [performWeeklyCheckIn]
  split_ifs <;> norm_num

/-- C3: `validateGoalSafety` classifies by magnitude: for loss the bounds are
2 and 3 lbs/week, for gain 1 and 1.5 lbs/week, and an exactly-zero change is
always safe and realistic. -/
theorem validateGoalSafety_classification (w : ℚ) :
    (w < 0 →
      (((validateGoalSafety w).isSafe = true ∧ (validateGoalSafety w).isRealistic = true)
          ↔ |w| ≤ 2) ∧
      (((validateGoalSafety w).isSafe = false ∧ (validateGoalSafety w).isRealistic = true)
          ↔ (2 < |w| ∧ |w| ≤ 3)) ∧
      (((validateGoalSafety w).isSafe = false ∧ (validateGoalSafety w).isRealistic = false)
          ↔ 3 < |w|)) ∧
    (0 < w →
      (((validateGoalSafety w).isSafe = true ∧ (validateGoalSafety w).isRealistic = true)
          ↔ |w| ≤ 1) ∧
      (((validateGoalSafety w).isSafe = false ∧ (validateGoalSafety w).isRealistic = true)
          ↔ (1 < |w| ∧ |w| ≤ 3/2)) ∧
      (((validateGoalSafety w).isSafe = false ∧ (validateGoalSafety w).isRealistic = false)
          ↔ 3/2 < |w|)) ∧
    (w = 0 →
      (validateGoalSafety w).isSafe = true ∧ (validateGoalSafety w).isRealistic = true) := by
  refine ⟨fun hneg => ?_, fun hpos => ?_, fun hz => ?_⟩
  · have hab : |w| = -w := abs_of_neg hneg
    have hnp : ¬ (0 < w) := by linarith
    simp only [validateGoalSafety, MAX_WEEKLY_LOSS_LBS, MAX_WEEKLY_GAIN_LBS, hab,
      if_pos hneg]
    split_ifs with h1 h2 <;>
      refine ⟨⟨fun hc => ?_, fun hc => ?_⟩, ⟨fun hc => ?_, fun hc => ?_⟩,
        ⟨fun hc => ?_, fun hc => ?_⟩⟩ <;>
      simp_all <;> linarith
  · have hab : |w| = w := abs_of_pos hpos
    have hnn : ¬ (w < 0) := by linarith
    simp only [validateGoalSafety, MAX_WEEKLY_LOSS_LBS, MAX_WEEKLY_GAIN_LBS, hab,
      if_neg hnn, if_pos hpos]
    split_ifs with h1 h2 <;>
      refine ⟨⟨fun hc => ?_, fun hc => ?_⟩, ⟨fun hc => ?_, fun hc => ?_⟩,
        ⟨fun hc => ?_, fun hc => ?_⟩⟩ <;>
      simp_all <;> linarith
  · subst hz
    simp [validateGoalSafety]

/-- Witness for C3: at a weekly change of -5/2 lbs the loss hypothesis holds
and the aggressive-but-realistic tier is characterized. -/
theorem validateGoalSafety_classification_witness :
    (-(5/2) : ℚ) < 0 ∧
    (((validateGoalSafety (-(5/2))).isSafe = false ∧
        (validateGoalSafety (-(5/2))).isRealistic = true)
      ↔ (2 < |(-(5/2) : ℚ)| ∧ |(-(5/2) : ℚ)| ≤ 3)) :=
  ⟨by norm_num, ((validateGoalSafety_classification (-(5/2))).1 (by norm_num)).2.1⟩

/-- Evaluation helper: `validateGoalSafety` at -3 lbs/week lands in the
aggressive tier, because the unrealistic tier requires a magnitude strictly
above 3. -/
theorem validateGoalSafety_neg3_eval :
    validateGoalSafety (-3) = ⟨false, true,
      "Losing 3.0 lbs/week is aggressive and may not be sustainable. Consider a more gradual approach."⟩ := by
  have hfix : toFixed1 3 = "3.0" := by
    have h : ((3:ℚ) * 10 + 1/2).floor = 30 := ratFloor_eqn _ 30 (by norm_num) (by norm_num)
    simp only [toFixed1, h]
    decide
  have hab : |(-3 : ℚ)| = 3 := by norm_num
  simp only [validateGoalSafety, MAX_WEEKLY_LOSS_LBS, hab, hfix]
  norm_num
  decide

/-- Evaluation helper: `validateGoalSafety` at -1.5 lbs/week lands in the safe
tier (a loss of 1.5 lbs/week is within the 2 lbs/week limit). -/
theorem validateGoalSafety_neg_three_halves_eval :
    validateGoalSafety (-(3/2)) = ⟨true, true, "Your goal is realistic and safe."⟩ := by
  have hab : |(-(3/2) : ℚ)| = 3/2 := by norm_num
  simp only [validateGoalSafety, MAX_WEEKLY_LOSS_LBS, hab]
  norm_num

section
set_option maxRecDepth 4000

/-- Counterexample to C4: the message of `validateGoalSafety (-3)` does not
contain the "dangerous" marker (it is the aggressive-tier message), and
`validateGoalSafety (-1.5)` has `isSafe = true`, not `false`. -/
theorem validateGoalSafety_boundary_counterexample :
    ¬ ("dangerous".toList <:+: (validateGoalSafety (-3)).message.toList) ∧
    (validateGoalSafety (-(3/2))).isSafe = true := by
  rw [validateGoalSafety_neg3_eval, validateGoalSafety_neg_three_halves_eval]
  exact ⟨by decide, rfl⟩

end

/-- C4 (amended): `validateGoalSafety (-3)` returns `isSafe = false` with
`isRealistic = true` and the aggressive-tier message (no "dangerous" marker,
since the unrealistic tier requires a magnitude strictly above 3), and
`validateGoalSafety (-1.5)` returns `isSafe = true` and `isRealistic = true`
(the safe tier). -/
theorem validateGoalSafety_boundary_behavior :
    ((validateGoalSafety (-3)).isSafe = false ∧
      (validateGoalSafety (-3)).isRealistic = true ∧
      (validateGoalSafety (-3)).message =
        "Losing 3.0 lbs/week is aggressive and may not be sustainable. Consider a more gradual approach.") ∧
    ((validateGoalSafety (-(3/2))).isSafe = true ∧
      (validateGoalSafety (-(3/2))).isRealistic = true) := by
  rw [validateGoalSafety_neg3_eval, validateGoalSafety_neg_three_halves_eval]
  exact ⟨⟨rfl, rfl, rfl⟩, rfl, rfl⟩

/-- Evaluation helper: the macro grams at 9 kcal with ratios (2/9, 2/9, 5/9)
all round up to 1. -/
theorem calculateMacroGrams_nine_eval :
    calculateMacroGrams 9 (2/9) (2/9) (5/9) = ⟨1, 1, 1⟩ := by
  simp only [calculateMacroGrams, MacroGrams.mk.injEq]
  refine ⟨?_, ?_, ?_⟩ <;> simpa using jsRound_eqn _ 1 (by norm_num) (by norm_num)

/-- Counterexample to C5: at dailyCalories = 9 with the non-negative ratio
triple (2/9, 2/9, 5/9) summing to 1, the recombined calories are 17, which
misses dailyCalories by 8 > 3. -/
theorem calculateMacroGrams_slack_counterexample :
    (0:ℚ) < 9 ∧ (0:ℚ) ≤ 2/9 ∧ (0:ℚ) ≤ 2/9 ∧ (0:ℚ) ≤ 5/9 ∧
    ((2:ℚ)/9 + 2/9 + 5/9 = 1) ∧
    ¬ (|4 * (calculateMacroGrams 9 (2/9) (2/9) (5/9)).proteinGrams
        + 4 * (calculateMacroGrams 9 (2/9) (2/9) (5/9)).carbsGrams
        + 9 * (calculateMacroGrams 9 (2/9) (2/9) (5/9)).fatGrams - 9| ≤ 3) := by
  refine ⟨by norm_num, by norm_num, by norm_num, by norm_num, by norm_num, ?_⟩
  rw [calculateMacroGrams_nine_eval]
  norm_num

/-- C5 (amended): for every positive dailyCalories and non-negative ratio
triple summing to 1, the independently rounded grams recombine to
dailyCalories within 17/2 kcal (4 + 4 + 9 halves of a rounding step), and
this bound is attained (see the counterexample, where the slack is 8). -/
theorem calculateMacroGrams_kcal_slack (dailyCalories p c f : ℚ)
    (_hC : 0 < dailyCalories) (_hp : 0 ≤ p) (_hc : 0 ≤ c) (_hf : 0 ≤ f)
    (hsum : p + c + f = 1) :
    |4 * (calculateMacroGrams dailyCalories p c f).proteinGrams
      + 4 * (calculateMacroGrams dailyCalories p c f).carbsGrams
      + 9 * (calculateMacroGrams dailyCalories p c f).fatGrams - dailyCalories| ≤ 17/2 := by
  simp only [calculateMacroGrams, hsum, div_one]
  have h1a := jsRound_sub_le (dailyCalories * p / 4)
  have h1b := neg_half_lt_jsRound_sub (dailyCalories * p / 4)
  have h2a := jsRound_sub_le (dailyCalories * c / 4)
  have h2b := neg_half_lt_jsRound_sub (dailyCalories * c / 4)
  have h3a := jsRound_sub_le (dailyCalories * f / 9)
  have h3b := neg_half_lt_jsRound_sub (dailyCalories * f / 9)
  have hx : 4 * (dailyCalories * p / 4) + 4 * (dailyCalories * c / 4)
      + 9 * (dailyCalories * f / 9) = dailyCalories * (p + c + f) := by ring
  rw [hsum, mul_one] at hx
  rw [abs_le]
  constructor <;> linarith

/-- Witness for C5 (amended) at 2000 kcal with the balanced ratio triple. -/
theorem calculateMacroGrams_kcal_slack_witness :
    (0:ℚ) < 2000 ∧ (0:ℚ) ≤ 30/100 ∧ (0:ℚ) ≤ 35/100 ∧
    ((30:ℚ)/100 + 35/100 + 35/100 = 1) ∧
    |4 * (calculateMacroGrams 2000 (30/100) (35/100) (35/100)).proteinGrams
      + 4 * (calculateMacroGrams 2000 (30/100) (35/100) (35/100)).carbsGrams
      + 9 * (calculateMacroGrams 2000 (30/100) (35/100) (35/100)).fatGrams - 2000| ≤ 17/2 :=
  ⟨by norm_num, by norm_num, by norm_num, by norm_num,
    calculateMacroGrams_kcal_slack 2000 (30/100) (35/100) (35/100)
      (by norm_num) (by norm_num) (by norm_num) (by norm_num) (by norm_num)⟩

/-- Counterexample to C7: for a reference date (2026-02-04) preceding the
birth date (2030-01-01), `calculateAge` does not fail: it returns the
number 4. -/
theorem calculateAge_no_error_counterexample :
    mkMs 2026 2 4 < mkMs 2030 1 1 ∧
    calculateAge (mkMs 2030 1 1) (mkMs 2026 2 4) = 4 := by decide

/-- C7 (amended): `calculateAge` never fails; when the reference date precedes
the birth date it still returns a (non-negative) number, the absolute
difference between the epoch-anchored year and 1970. -/
theorem calculateAge_total_nonneg (dateOfBirth referenceDate : ℤ)
    (_h : referenceDate < dateOfBirth) : 0 ≤ calculateAge dateOfBirth referenceDate := by
  simp only [calculateAge]
  exact abs_nonneg _

/-- Witness for C7 (amended) at the concrete reversed pair. -/
theorem calculateAge_total_nonneg_witness :
    mkMs 2026 2 4 < mkMs 2030 1 1 ∧ 0 ≤ calculateAge (mkMs 2030 1 1) (mkMs 2026 2 4) :=
  ⟨by decide, calculateAge_total_nonneg (mkMs 2030 1 1) (mkMs 2026 2 4) (by decide)⟩

/-- Counterexample to C8: born 1999-12-31 with reference date 2000-12-30 (a
pair with birth before reference), zero whole calendar years have elapsed
(the first birthday is a day away), yet `calculateAge` returns 1: the
epoch-anchored year trick does not floor at the birthday for every pair. -/
theorem calculateAge_floor_counterexample :
    mkMs 1999 12 31 ≤ mkMs 2000 12 30 ∧
    wholeYearsElapsed 1999 12 31 2000 12 30 = 0 ∧
    calculateAge (mkMs 1999 12 31) (mkMs 2000 12 30) = 1 := by decide

/-- C8 (amended): `calculateAge` agrees with the floored whole-years count on
the claim's example (born March 1 1990 is 35, not 36, on February 4 2026),
though not on every pair (see the counterexample). -/
theorem calculateAge_example_floor :
    calculateAge (mkMs 1990 3 1) (mkMs 2026 2 4) = 35 ∧
    wholeYearsElapsed 1990 3 1 2026 2 4 = 35 ∧
    calculateAge (mkMs 1990 1 1) (mkMs 2026 2 4) = 36 := by decide

/-- C9: at a ratio set summing to zero the source raises no error; every gram
field of the result is a non-finite JavaScript number (`none` in the model),
silently surfaced to the caller. -/
theorem calculateMacroGramsJs_zero_ratios :
    calculateMacroGramsJs 2000 0 0 0 = ⟨none, none, none⟩ := by
  simp [calculateMacroGramsJs]

/-- C10: with preference `manual` and no custom ratios, `getMacroTargets`
falls back to the `manual` preset (identical to `balanced`, ratios
0.30/0.35/0.35) and returns the macro grams computed from those. -/
theorem getMacroTargets_manual_default (dailyCalories : ℚ) (_h : 0 < dailyCalories) :
    getMacroTargets dailyCalories .manual none
      = ⟨dailyCalories,
          (calculateMacroGrams dailyCalories (30/100) (35/100) (35/100)).proteinGrams,
          (calculateMacroGrams dailyCalories (30/100) (35/100) (35/100)).carbsGrams,
          (calculateMacroGrams dailyCalories (30/100) (35/100) (35/100)).fatGrams⟩ ∧
    MACRO_PRESETS .manual = MACRO_PRESETS .balanced := by
  exact ⟨rfl, rfl⟩

/-- Witness for C10 at 2000 kcal. -/
theorem getMacroTargets_manual_default_witness :
    (0:ℚ) < 2000 ∧
    (getMacroTargets 2000 .manual none
      = ⟨2000,
          (calculateMacroGrams 2000 (30/100) (35/100) (35/100)).proteinGrams,
          (calculateMacroGrams 2000 (30/100) (35/100) (35/100)).carbsGrams,
          (calculateMacroGrams 2000 (30/100) (35/100) (35/100)).fatGrams⟩ ∧
      MACRO_PRESETS .manual = MACRO_PRESETS .balanced) :=
  ⟨by norm_num, getMacroTargets_manual_default 2000 (by norm_num)⟩
